import Mathlib

/-!
Verification of the STL mesh-analysis core (`api/core/stl_tools.py`) and the
session manager (`api/core/session_manager.py`) of the electroplating
repository.

Numbers are modelled exactly: vertex coordinates and all derived rational
arithmetic use `ℚ`; quantities whose computation takes a square root
(triangle areas, surface area, distribution statistics) live in `ℝ` via
`Real.sqrt`.  Python exceptions are modelled with `Option`/`Except`; the
mutable `STLTools` object is modelled as an explicit state record that every
method threads.
-/

namespace STLSpec

/-- A 3-component real-valued coordinate (`ℚ` models the exact value of the
float arithmetic). -/
abbrev Vec3 : Type := ℚ × ℚ × ℚ

/-- A triangle stores its own 3 vertex copies, matching STL semantics. -/
abbrev Triangle : Type := Vec3 × Vec3 × Vec3

/-- `self.mesh.vectors`: an ordered sequence of triangles. -/
abbrev Mesh : Type := List Triangle

/-- Componentwise subtraction (numpy `v1 - v0`). -/
def vsub (a b : Vec3) : Vec3 := (a.1 - b.1, a.2.1 - b.2.1, a.2.2 - b.2.2)

/-- Componentwise addition (numpy `vectors += translation_vector`). -/
def vadd (a b : Vec3) : Vec3 := (a.1 + b.1, a.2.1 + b.2.1, a.2.2 + b.2.2)

/-- Componentwise multiplication (numpy broadcast `vectors *= scale_matrix`). -/
def vmul (a b : Vec3) : Vec3 := (a.1 * b.1, a.2.1 * b.2.1, a.2.2 * b.2.2)

/-- Componentwise minimum (numpy `np.min(..., axis=0)` accumulator). -/
def vmin (a b : Vec3) : Vec3 := (min a.1 b.1, min a.2.1 b.2.1, min a.2.2 b.2.2)

/-- Componentwise maximum (numpy `np.max(..., axis=0)` accumulator). -/
def vmax (a b : Vec3) : Vec3 := (max a.1 b.1, max a.2.1 b.2.1, max a.2.2 b.2.2)

/-- `np.cross` of two 3-vectors. -/
def cross (a b : Vec3) : Vec3 :=
  (a.2.1 * b.2.2 - a.2.2 * b.2.1,
   a.2.2 * b.1 - a.1 * b.2.2,
   a.1 * b.2.1 - a.2.1 * b.1)

/-- `np.dot` of two 3-vectors. -/
def dot (a b : Vec3) : ℚ := a.1 * b.1 + a.2.1 * b.2.1 + a.2.2 * b.2.2

/-- Squared Euclidean norm, so that `np.linalg.norm v = Real.sqrt (normSq v)`. -/
def normSq (a : Vec3) : ℚ := dot a a

/-- `np.linalg.norm` of a 3-vector. -/
noncomputable def vnorm (a : Vec3) : ℝ := Real.sqrt ((normSq a : ℚ) : ℝ)

/-- The cross product `np.cross(v1 - v0, v2 - v0)` of a triangle's two edge
vectors, used by `STLTools._calculate_triangle_area`. -/
def triCross (t : Triangle) : Vec3 := cross (vsub t.2.1 t.1) (vsub t.2.2 t.1)

/-- `STLTools._calculate_triangle_area`: `0.5 * np.linalg.norm(cross_product)`. -/
noncomputable def calculate_triangle_area (t : Triangle) : ℝ :=
  (1 / 2 : ℝ) * vnorm (triCross t)

/-- `STLTools.calculate_surface_area` body: the sum over triangles of their
areas (the loop accumulating `total_area`). -/
noncomputable def meshSurfaceArea (m : Mesh) : ℝ :=
  (m.map calculate_triangle_area).sum

/-- Signed volume contribution of one triangle:
`np.dot(v0, np.cross(v1, v2)) / 6.0`. -/
def volTerm (t : Triangle) : ℚ := dot t.1 (cross t.2.1 t.2.2) / 6

/-- The signed sum accumulated by the loop in `STLTools.calculate_volume`. -/
def signedVolume (m : Mesh) : ℚ := (m.map volTerm).sum

/-- `STLTools.calculate_volume` body: `abs(volume)` of the accumulated signed
sum. -/
def meshVolume (m : Mesh) : ℚ := |signedVolume m|

/-- `self.mesh.vectors.reshape(-1, 3)`: the flat vertex list of a mesh. -/
def meshVertices (m : Mesh) : List Vec3 :=
  m.flatMap (fun t => [t.1, t.2.1, t.2.2])

/-- The bounding-box record returned by `STLTools.get_bounding_box`. -/
structure Bounds where
  bmin : Vec3
  bmax : Vec3
  dimensions : Vec3
  deriving DecidableEq, Repr

/-- `STLTools.get_bounding_box` body: componentwise min/max over all
vertices and `dimensions = max - min` (undefined for an empty mesh, where
`np.min` would raise). -/
def meshBounds (m : Mesh) : Option Bounds :=
  match meshVertices m with
  | [] => none
  | v :: vs =>
    let mn := vs.foldl vmin v
    let mx := vs.foldl vmax v
    some ⟨mn, mx, vsub mx mn⟩

/-- Componentwise sum of a vertex list (numerator of `np.mean(..., axis=0)`). -/
def vsum (l : List Vec3) : Vec3 := l.foldl vadd (0, 0, 0)

/-- `STLTools.get_center_of_mass` body: `np.mean` of all vertex coordinates
(undefined for an empty mesh). -/
def meshCenterOfMass (m : Mesh) : Option Vec3 :=
  match meshVertices m with
  | [] => none
  | l =>
    let n : ℚ := l.length
    some ((vsum l).1 / n, (vsum l).2.1 / n, (vsum l).2.2 / n)

/-- The smallest of the three bounding-box dimensions, `sorted_dims[0]` in
`STLTools._calculate_aspect_ratio` (`np.sort` ascending, index 0). -/
def smallestDim (d : Vec3) : ℚ := min d.1 (min d.2.1 d.2.2)

/-- The largest of the three bounding-box dimensions, `sorted_dims[2]`. -/
def largestDim (d : Vec3) : ℚ := max d.1 (max d.2.1 d.2.2)

/-- `STLTools._calculate_aspect_ratio`:
`sorted_dims[2] / sorted_dims[0] if sorted_dims[0] > 0 else None`. -/
def calculate_aspect_ratio (d : Vec3) : Option ℚ :=
  if 0 < smallestDim d then some (largestDim d / smallestDim d) else none

/-- The degenerate-triangle test of `STLTools.validate_mesh`
(`area < 1e-10`), stated on the decidable rational square:
`0.5 * sqrt q < 1e-10  ↔  q < 4e-20` for the nonnegative `q = normSq (triCross t)`.
The equivalence with the source's real-valued comparison is proved in
`isDegenerate_iff_area_lt`. -/
def isDegenerate (t : Triangle) : Bool :=
  normSq (triCross t) < 4 / 10 ^ 20

/-- The validation record returned by `STLTools.validate_mesh`. -/
structure ValidationResult where
  is_valid : Bool
  issues : List String
  warnings : List String
  degenerate_triangles : List Nat
  deriving DecidableEq, Repr

/-- `STLTools.validate_mesh`: collects indices of degenerate triangles
(`area < 1e-10`) as issues, emits warnings for tiny bounding-box dimensions
(`< 1e-6`) and tiny volume (`< 1e-10`), and reports
`is_valid = (len(issues) == 0)`.  `none` models the exception raised for an
empty mesh (via `get_bounding_box`). -/
def validate_mesh (m : Mesh) : Option ValidationResult :=
  match meshBounds m with
  | none => none
  | some b =>
    let degenerate := m.enum.filterMap
      (fun p => if isDegenerate p.2 then some p.1 else none)
    let issues : List String :=
      if degenerate.isEmpty then [] else ["Found degenerate triangles"]
    let dimWarn : List String :=
      if b.dimensions.1 < 1 / 10 ^ 6 ∨ b.dimensions.2.1 < 1 / 10 ^ 6 ∨
          b.dimensions.2.2 < 1 / 10 ^ 6 then
        ["Mesh has very small dimensions in one or more axes"]
      else []
    let volWarn : List String :=
      if meshVolume m < 1 / 10 ^ 10 then
        ["Mesh has very small or zero volume"]
      else []
    some ⟨issues.isEmpty, issues, dimWarn ++ volWarn, degenerate⟩

/-- min/max/mean/std record used by `get_mesh_statistics` for triangle areas
and edge lengths. -/
structure DistStats where
  dmin : ℝ
  dmax : ℝ
  mean : ℝ
  std : ℝ

/-- Minimum of a nonempty real list (python `min`). -/
noncomputable def listMin (x : ℝ) (xs : List ℝ) : ℝ := xs.foldl min x

/-- Maximum of a nonempty real list (python `max`). -/
noncomputable def listMax (x : ℝ) (xs : List ℝ) : ℝ := xs.foldl max x

/-- `np.mean` of a real list. -/
noncomputable def listMean (l : List ℝ) : ℝ := l.sum / l.length

/-- `np.std` (population standard deviation) of a real list. -/
noncomputable def listStd (l : List ℝ) : ℝ :=
  Real.sqrt ((l.map (fun x => (x - listMean l) ^ 2)).sum / l.length)

/-- The min/max/mean/std summary of a nonempty list. -/
noncomputable def distStats (x : ℝ) (xs : List ℝ) : DistStats :=
  ⟨listMin x xs, listMax x xs, listMean (x :: xs), listStd (x :: xs)⟩

/-- The three edge lengths of a triangle accumulated by
`get_mesh_statistics` (`norm(tri[1]-tri[0])`, `norm(tri[2]-tri[1])`,
`norm(tri[0]-tri[2])`). -/
noncomputable def triEdgeLengths (t : Triangle) : List ℝ :=
  [vnorm (vsub t.2.1 t.1), vnorm (vsub t.2.2 t.2.1), vnorm (vsub t.1 t.2.2)]

/-- The statistics dictionary returned by `STLTools.get_mesh_statistics`. -/
structure MeshStatistics where
  triangle_count : Nat
  vertex_count : Nat
  surface_area : ℝ
  volume : ℚ
  center_of_mass : Vec3
  bounding_box : Bounds
  triangle_areas : DistStats
  edge_lengths : DistStats
  aspect_ratio : Option ℚ
  surface_area_to_volume_ratio : Option ℝ

/-- `STLTools.get_mesh_statistics`: assembles all derived values (undefined
for an empty mesh, where `min(areas)` and the bounding box would raise). -/
noncomputable def get_mesh_statistics (m : Mesh) : Option MeshStatistics :=
  match m, meshBounds m, meshCenterOfMass m with
  | t :: ts, some b, some c =>
    some
      { triangle_count := m.length
        vertex_count := m.length * 3
        surface_area := meshSurfaceArea m
        volume := meshVolume m
        center_of_mass := c
        bounding_box := b
        triangle_areas :=
          distStats (calculate_triangle_area t) (ts.map calculate_triangle_area)
        edge_lengths :=
          distStats (vnorm (vsub t.2.1 t.1))
            ((triEdgeLengths t).tail ++ ts.flatMap triEdgeLengths)
        aspect_ratio := calculate_aspect_ratio b.dimensions
        surface_area_to_volume_ratio :=
          if 0 < meshVolume m then some (meshSurfaceArea m / (meshVolume m : ℝ))
          else none }
  | _, _, _ => none

/-- The error taxonomy of the spec; `invalidArgument` models a python
`ValueError` on bad arguments, `capacityExceeded` the `RuntimeError` raised
by `SessionManager.create_session` when the store stays full after a sweep. -/
inductive ApiError where
  | invalidArgument
  | capacityExceeded
  deriving DecidableEq, Repr

/-- The mutable state of one `STLTools` instance: the loaded mesh (if any)
and the four memoization fields set in `STLTools.__init__`. -/
structure STLState where
  mesh : Option Mesh
  cached_surface_area : Option ℝ
  cached_volume : Option ℚ
  cached_bounds : Option Bounds
  cached_center_of_mass : Option Vec3

/-- A fresh instance as built by `STLTools.__init__` and then
`load_file` (mesh loaded, every cache `None`). -/
def loadedState (m : Mesh) : STLState := ⟨some m, none, none, none, none⟩

/-- `STLTools._clear_cache`: reset all four cached calculations. -/
def clear_cache (st : STLState) : STLState :=
  { st with cached_surface_area := none, cached_volume := none,
            cached_bounds := none, cached_center_of_mass := none }

/-- `STLTools.calculate_volume`: `none` models the `ValueError` of
`_ensure_mesh_loaded`; otherwise return the cached value if present, else
compute, store and return it. -/
def calculate_volume (st : STLState) : Option (ℚ × STLState) :=
  match st.mesh with
  | none => none
  | some m =>
    match st.cached_volume with
    | some v => some (v, st)
    | none => some (meshVolume m, { st with cached_volume := some (meshVolume m) })

/-- `STLTools.calculate_surface_area` with the same memoization discipline. -/
noncomputable def calculate_surface_area (st : STLState) : Option (ℝ × STLState) :=
  match st.mesh with
  | none => none
  | some m =>
    match st.cached_surface_area with
    | some a => some (a, st)
    | none =>
      some (meshSurfaceArea m, { st with cached_surface_area := some (meshSurfaceArea m) })

/-- The argument of `STLTools.scale_mesh`: a single number or a list. -/
inductive ScaleFactor where
  | scalar (s : ℚ)
  | vec (l : List ℚ)

/-- Apply one componentwise vertex map to every triangle of a mesh. -/
def mapMesh (f : Vec3 → Vec3) (m : Mesh) : Mesh :=
  m.map (fun t => (f t.1, f t.2.1, f t.2.2))

/-- The body of the `try` block of `STLTools.scale_mesh`: a scalar is
broadcast to all three axes, a list must have exactly 3 entries
(`ValueError`, i.e. `invalidArgument`, otherwise); on success every vertex is
multiplied componentwise and the cache is cleared. -/
def scale_attempt (st : STLState) (m : Mesh) (f : ScaleFactor) :
    Except ApiError STLState :=
  match f with
  | .scalar s =>
    .ok (clear_cache { st with mesh := some (mapMesh (fun v => vmul v (s, s, s)) m) })
  | .vec l =>
    match l with
    | [sx, sy, sz] =>
      .ok (clear_cache { st with mesh := some (mapMesh (fun v => vmul v (sx, sy, sz)) m) })
    | _ => .error .invalidArgument

/-- `STLTools.scale_mesh`: `_ensure_mesh_loaded` raises outside the `try`
(modelled `none`); inside, an exception is caught and surfaced as
`False` with the state untouched, success returns `True`. -/
def scale_mesh (st : STLState) (f : ScaleFactor) : Option (Bool × STLState) :=
  match st.mesh with
  | none => none
  | some m =>
    match scale_attempt st m f with
    | .ok st2 => some (true, st2)
    | .error _ => some (false, st)

/-- The body of the `try` block of `STLTools.translate_mesh`: the vector must
have exactly 3 components; on success it is added to every vertex and the
cache is cleared. -/
def translate_attempt (st : STLState) (m : Mesh) (l : List ℚ) :
    Except ApiError STLState :=
  match l with
  | [tx, ty, tz] =>
    .ok (clear_cache { st with mesh := some (mapMesh (fun v => vadd v (tx, ty, tz)) m) })
  | _ => .error .invalidArgument

/-- `STLTools.translate_mesh`, with the same `try`/`except` shape as
`scale_mesh`. -/
def translate_mesh (st : STLState) (l : List ℚ) : Option (Bool × STLState) :=
  match st.mesh with
  | none => none
  | some m =>
    match translate_attempt st m l with
    | .ok st2 => some (true, st2)
    | .error _ => some (false, st)

/-- The volume unit accepted by `estimate_resin_cost` (`VolumeUnit` in
`models.py`; any other string raises `ValueError`). -/
inductive VolumeUnit where
  | mm3
  | cm3
  deriving DecidableEq, Repr

/-- The breakdown dictionary returned by `STLTools.estimate_resin_cost`. -/
structure ResinCostResult where
  volume_mm3 : ℚ
  volume_cm3 : ℚ
  mass_g : ℚ
  mass_kg : ℚ
  cost : ℚ
  deriving DecidableEq, Repr

/-- `STLTools.estimate_resin_cost`: converts the mesh volume to cm³
(`÷1000` for `mm3`, as-is for `cm3`), then
`mass_g = volume_cm3 * density`, `mass_kg = mass_g / 1000`,
`cost = mass_kg * price_per_kg`.  The function itself performs no
density/price validation. -/
def estimate_resin_cost (st : STLState) (density price : ℚ)
    (unit : VolumeUnit) : Option (ResinCostResult × STLState) :=
  match calculate_volume st with
  | none => none
  | some (volume_mm3, st2) =>
    let volume_cm3 := match unit with
      | .mm3 => volume_mm3 / 1000
      | .cm3 => volume_mm3
    let mass_g := volume_cm3 * density
    let mass_kg := mass_g / 1000
    some (⟨volume_mm3, volume_cm3, mass_g, mass_kg, mass_kg * price⟩, st2)

/-- The request validation of `ResinCostRequest` in `api/core/models.py`:
both `resin_density_g_cm3` and `resin_price_per_kg` carry `Field(gt=0)`. -/
def resinRequestValid (density price : ℚ) : Bool :=
  decide (0 < density) && decide (0 < price)

/-- The `/sessions/.../estimate-resin-cost` path: FastAPI validates the
`ResinCostRequest` model (rejecting `density ≤ 0` or `price ≤ 0` as an
invalid argument) before `estimate_resin_cost` runs. -/
def resin_cost_endpoint (st : STLState) (density price : ℚ)
    (unit : VolumeUnit) : Except ApiError (Option (ResinCostResult × STLState)) :=
  if resinRequestValid density price then .ok (estimate_resin_cost st density price unit)
  else .error .invalidArgument

/-- `STLTools._calculate_coverage_efficiency`:
`sa_v_ratio = area / volume if volume > 0 else 0`, an undefined aspect ratio
defaults to `1.0`, both factors are clamped by `min(x / 10, 1)` and
`max(1 - 0.15 * aspect_factor - 0.15 * sa_v_factor, 0.7)` is returned
(`none` models the empty-mesh exception from `get_bounding_box`). -/
noncomputable def calculate_coverage_efficiency (m : Mesh) : Option ℝ :=
  match meshBounds m with
  | none => none
  | some b =>
    let sa_v : ℝ :=
      if 0 < meshVolume m then meshSurfaceArea m / (meshVolume m : ℝ) else 0
    let ar : ℝ := match calculate_aspect_ratio b.dimensions with
      | none => 1
      | some a => (a : ℝ)
    let aspect_factor := min (ar / 10) 1
    let sa_v_factor := min (sa_v / 10) 1
    some (max (1 - aspect_factor * (15 / 100) - sa_v_factor * (15 / 100)) (7 / 10))

/-- Modelled from the spec: the coverage-efficiency formula exactly as
§4.4 words it — `1 - 0.15*min(aspectRatio/10,1) - 0.15*min((area/volume)/10,1)`,
floored at 0.7, an undefined aspect ratio replaced by 1.0 before the formula
is applied. -/
noncomputable def coverageEfficiencySpec (aspect : Option ℚ) (area : ℝ)
    (volume : ℚ) : ℝ :=
  let ar : ℝ := match aspect with
    | none => 1
    | some a => (a : ℝ)
  max (1 - (15 / 100) * min (ar / 10) 1 -
        (15 / 100) * min ((area / (volume : ℝ)) / 10) 1) (7 / 10)

/-! ### Session manager (`api/core/session_manager.py`)

Timestamps are rationals (seconds); the stored file is represented by its
byte content (`List Nat`), and the external `STLTools.load_file` parse of
those bytes is a parameter `load` of the operations that materialize an
instance (the STL parser itself is the `numpy-stl` library, outside this
core). -/

/-- One record of `SessionManager.sessions`. -/
structure Session where
  filename : String
  content : List Nat
  file_size : Nat
  upload_time : ℚ
  last_accessed : ℚ
  deriving DecidableEq

/-- Lookup in an association list (python dict read `d[k]` / `k in d`). -/
def alookup {α : Type} : List (String × α) → String → Option α
  | [], _ => none
  | p :: tl, k => if p.1 = k then some p.2 else alookup tl k

/-- Remove a key from an association list (python `del d[k]`). -/
def aerase {α : Type} : List (String × α) → String → List (String × α)
  | [], _ => []
  | p :: tl, k => if p.1 = k then aerase tl k else p :: aerase tl k

/-- Insert-or-update in an association list (python `d[k] = v`: replaces in
place when the key exists, appends otherwise). -/
def aupdate {α : Type} (l : List (String × α)) (k : String) (v : α) :
    List (String × α) :=
  if (alookup l k).isSome then l.map (fun p => if p.1 = k then (k, v) else p)
  else l ++ [(k, v)]

/-- The mutable state of one `SessionManager`: configuration, the session
dict, the materialized `STLTools` instances, the `lru_cache` memo of
`_get_stl_tools_cached`, and the hit/miss counters. -/
structure SessionMgr where
  session_timeout : ℚ
  max_sessions : Nat
  sessions : List (String × Session)
  stl_instances : List (String × STLState)
  lru : List (String × Option STLState)
  cache_hits : Nat
  cache_misses : Nat

/-- `SessionManager.delete_session`: returns `False` for an unknown id;
otherwise drops the `STLTools` instance, clears the whole `lru_cache`
(`cache_clear()`), removes the stored file and the session record. -/
def delete_session (mgr : SessionMgr) (sid : String) : Bool × SessionMgr :=
  if (alookup mgr.sessions sid).isSome then
    (true,
      { mgr with
          stl_instances := aerase mgr.stl_instances sid
          lru := []
          sessions := aerase mgr.sessions sid })
  else (false, mgr)

/-- `SessionManager.cleanup_expired_sessions`: collect every session with
`now - last_accessed > session_timeout`, delete each, return the count. -/
def cleanup_expired_sessions (mgr : SessionMgr) (now : ℚ) : Nat × SessionMgr :=
  let expired := (mgr.sessions.filter
    (fun p => mgr.session_timeout < now - p.2.last_accessed)).map Prod.fst
  (expired.length, expired.foldl (fun m sid => (delete_session m sid).2) mgr)

/-- The second phase of `SessionManager.create_session`: the re-check of the
session limit after the sweep, then the write of the file bytes and the new
session record (both timestamps are `now`). -/
def create_session_store (mgr : SessionMgr) (now : ℚ) (newId : String)
    (content : List Nat) (filename : String) :
    Except ApiError String × SessionMgr :=
  if mgr.max_sessions ≤ mgr.sessions.length then (.error .capacityExceeded, mgr)
  else
    (.ok newId,
      { mgr with
          sessions := aupdate mgr.sessions newId
            ⟨filename, content, content.length, now, now⟩ })

/-- `SessionManager.create_session`: if the store is at capacity, attempt a
TTL sweep first (`cleanup_expired_sessions`); if still at capacity, fail with
`capacityExceeded` (`RuntimeError`); otherwise store the bytes under a fresh
id (`uuid4`, passed in as `newId`). -/
def create_session (mgr : SessionMgr) (now : ℚ) (newId : String)
    (content : List Nat) (filename : String) :
    Except ApiError String × SessionMgr :=
  create_session_store
    (if mgr.max_sessions ≤ mgr.sessions.length then
      (cleanup_expired_sessions mgr now).2
    else mgr) now newId content filename

/-- `SessionManager._get_stl_tools_cached`, an `lru_cache`-decorated method:
on a memo hit return the memoized result unchanged; on a miss, compute
(`None` for an unknown session, else `load` the stored bytes) and memoize. -/
def get_stl_tools_cached (mgr : SessionMgr) (load : List Nat → Option STLState)
    (sid : String) : Option STLState × SessionMgr :=
  match alookup mgr.lru sid with
  | some r => (r, mgr)
  | none =>
    let r := match alookup mgr.sessions sid with
      | none => none
      | some s => load s.content
    (r, { mgr with lru := aupdate mgr.lru sid r })

/-- `SessionManager.get_stl_tools`: unknown id counts a miss; a materialized
instance in `stl_instances` is returned as a hit; otherwise the
`lru_cache` helper runs and a successful load is installed in
`stl_instances`. -/
def get_stl_tools (mgr : SessionMgr) (load : List Nat → Option STLState)
    (sid : String) : Option STLState × SessionMgr :=
  if (alookup mgr.sessions sid).isNone then
    (none, { mgr with cache_misses := mgr.cache_misses + 1 })
  else
    match alookup mgr.stl_instances sid with
    | some inst => (some inst, { mgr with cache_hits := mgr.cache_hits + 1 })
    | none =>
      match get_stl_tools_cached mgr load sid with
      | (some inst, mgr2) =>
        (some inst,
          { mgr2 with
              stl_instances := aupdate mgr2.stl_instances sid inst
              cache_hits := mgr2.cache_hits + 1 })
      | (none, mgr2) =>
        (none, { mgr2 with cache_misses := mgr2.cache_misses + 1 })

/-! ### Concrete meshes used by the end-to-end scenarios -/

/-- A unit cube of side 1 triangulated into 12 triangles with outward
winding (the end-to-end scenario mesh of §8). -/
def cubeMesh : Mesh :=
  [ (((0:ℚ), (0:ℚ), (0:ℚ)), ((1:ℚ), (1:ℚ), (0:ℚ)), ((1:ℚ), (0:ℚ), (0:ℚ))),
    (((0:ℚ), (0:ℚ), (0:ℚ)), ((0:ℚ), (1:ℚ), (0:ℚ)), ((1:ℚ), (1:ℚ), (0:ℚ))),
    (((0:ℚ), (0:ℚ), (1:ℚ)), ((1:ℚ), (0:ℚ), (1:ℚ)), ((1:ℚ), (1:ℚ), (1:ℚ))),
    (((0:ℚ), (0:ℚ), (1:ℚ)), ((1:ℚ), (1:ℚ), (1:ℚ)), ((0:ℚ), (1:ℚ), (1:ℚ))),
    (((0:ℚ), (0:ℚ), (0:ℚ)), ((1:ℚ), (0:ℚ), (0:ℚ)), ((1:ℚ), (0:ℚ), (1:ℚ))),
    (((0:ℚ), (0:ℚ), (0:ℚ)), ((1:ℚ), (0:ℚ), (1:ℚ)), ((0:ℚ), (0:ℚ), (1:ℚ))),
    (((1:ℚ), (1:ℚ), (0:ℚ)), ((0:ℚ), (1:ℚ), (0:ℚ)), ((0:ℚ), (1:ℚ), (1:ℚ))),
    (((1:ℚ), (1:ℚ), (0:ℚ)), ((0:ℚ), (1:ℚ), (1:ℚ)), ((1:ℚ), (1:ℚ), (1:ℚ))),
    (((0:ℚ), (0:ℚ), (0:ℚ)), ((0:ℚ), (0:ℚ), (1:ℚ)), ((0:ℚ), (1:ℚ), (1:ℚ))),
    (((0:ℚ), (0:ℚ), (0:ℚ)), ((0:ℚ), (1:ℚ), (1:ℚ)), ((0:ℚ), (1:ℚ), (0:ℚ))),
    (((1:ℚ), (0:ℚ), (0:ℚ)), ((1:ℚ), (1:ℚ), (0:ℚ)), ((1:ℚ), (1:ℚ), (1:ℚ))),
    (((1:ℚ), (0:ℚ), (0:ℚ)), ((1:ℚ), (1:ℚ), (1:ℚ)), ((1:ℚ), (0:ℚ), (1:ℚ))) ]

/-- The unit cube scaled by 10: a 12-triangle mesh of volume 1000 mm³, used
by the resin-cost scenario. -/
def cube10Mesh : Mesh := mapMesh (fun v => vmul v (10, 10, 10)) cubeMesh

/-! ### Helper lemmas -/

lemma normSq_nonneg (v : Vec3) : 0 ≤ normSq v := by
  unfold normSq dot
  nlinarith [mul_self_nonneg v.1, mul_self_nonneg v.2.1, mul_self_nonneg v.2.2]

/-- The decidable degeneracy test agrees with the source comparison
`area < 1e-10` on the real-valued triangle area. -/
lemma isDegenerate_iff (t : Triangle) :
    isDegenerate t = true ↔ calculate_triangle_area t < 1 / 10 ^ 10 := by
  unfold isDegenerate calculate_triangle_area vnorm
  rw [decide_eq_true_eq]
  have hiff : Real.sqrt ((normSq (triCross t) : ℚ) : ℝ) < 2 / 10 ^ 10 ↔
      ((normSq (triCross t) : ℚ) : ℝ) < (2 / 10 ^ 10 : ℝ) ^ 2 :=
    Real.sqrt_lt' (by norm_num)
  constructor
  · intro h
    have hc : ((normSq (triCross t) : ℚ) : ℝ) < ((4 / 10 ^ 20 : ℚ) : ℝ) := by
      exact_mod_cast h
    have hs : Real.sqrt ((normSq (triCross t) : ℚ) : ℝ) < 2 / 10 ^ 10 := by
      rw [hiff]
      calc ((normSq (triCross t) : ℚ) : ℝ) < ((4 / 10 ^ 20 : ℚ) : ℝ) := hc
        _ = (2 / 10 ^ 10 : ℝ) ^ 2 := by push_cast; norm_num
    linarith
  · intro h
    have hs : Real.sqrt ((normSq (triCross t) : ℚ) : ℝ) < 2 / 10 ^ 10 := by
      linarith
    have hc : ((normSq (triCross t) : ℚ) : ℝ) < ((4 / 10 ^ 20 : ℚ) : ℝ) := by
      calc ((normSq (triCross t) : ℚ) : ℝ) < (2 / 10 ^ 10 : ℝ) ^ 2 := hiff.mp hs
        _ = ((4 / 10 ^ 20 : ℚ) : ℝ) := by push_cast; norm_num
    exact_mod_cast hc

/-- A triangle with two coincident vertices has a zero edge cross product. -/
lemma normSq_triCross_coincident (t : Triangle)
    (h : t.1 = t.2.1 ∨ t.2.1 = t.2.2 ∨ t.1 = t.2.2) :
    normSq (triCross t) = 0 := by
  obtain ⟨⟨a1, a2, a3⟩, ⟨b1, b2, b3⟩, ⟨c1, c2, c3⟩⟩ := t
  simp only [Prod.mk.injEq] at h
  unfold normSq dot triCross cross vsub
  rcases h with ⟨h1, h2, h3⟩ | ⟨h1, h2, h3⟩ | ⟨h1, h2, h3⟩ <;>
    (subst h1; subst h2; subst h3; ring)

/-- Scaling every vertex uniformly by `s` multiplies each signed tetrahedron
term by `s ^ 3`. -/
lemma volTerm_scale (s : ℚ) (t : Triangle) :
    volTerm ((fun t : Triangle =>
        (vmul t.1 (s, s, s), vmul t.2.1 (s, s, s), vmul t.2.2 (s, s, s))) t) =
      s ^ 3 * volTerm t := by
  obtain ⟨⟨a1, a2, a3⟩, ⟨b1, b2, b3⟩, ⟨c1, c2, c3⟩⟩ := t
  unfold volTerm dot cross vmul
  ring

lemma signedVolume_scale (s : ℚ) (m : Mesh) :
    signedVolume (mapMesh (fun v => vmul v (s, s, s)) m) =
      s ^ 3 * signedVolume m := by
  unfold signedVolume mapMesh
  induction m with
  | nil => simp
  | cons t ts ih =>
    simp only [List.map_cons, List.sum_cons, ih]
    rw [volTerm_scale]
    ring

lemma meshVolume_scale (s : ℚ) (m : Mesh) :
    meshVolume (mapMesh (fun v => vmul v (s, s, s)) m) =
      |s| ^ 3 * meshVolume m := by
  unfold meshVolume
  rw [signedVolume_scale, abs_mul, abs_pow]

/-- Scaling by `1` is the identity on a mesh. -/
lemma mapMesh_one (m : Mesh) :
    mapMesh (fun v => vmul v (1, 1, 1)) m = m := by
  unfold mapMesh vmul
  simp

/-- Scaling by `s` and then by `1 / s` restores the mesh exactly. -/
lemma mapMesh_inv (s : ℚ) (hs : s ≠ 0) (m : Mesh) :
    mapMesh (fun v => vmul v (1 / s, 1 / s, 1 / s))
      (mapMesh (fun v => vmul v (s, s, s)) m) = m := by
  have hv : ∀ v : Vec3, vmul (vmul v (s, s, s)) (1 / s, 1 / s, 1 / s) = v := by
    intro v
    obtain ⟨x, y, z⟩ := v
    unfold vmul
    simp only [Prod.mk.injEq]
    refine ⟨?_, ?_, ?_⟩ <;> field_simp
  unfold mapMesh
  rw [List.map_map]
  conv_rhs => rw [← List.map_id m]
  apply List.map_congr_left
  intro t ht
  simp only [one_div] at hv
  simp [hv]

/-! ### Evaluation of the unit cube scenario -/

lemma cube_volume : meshVolume cubeMesh = 1 := by
  norm_num [meshVolume, signedVolume, cubeMesh, volTerm, dot, cross]

lemma cube_center_of_mass : meshCenterOfMass cubeMesh = some (1/2, 1/2, 1/2) := by
  norm_num [meshCenterOfMass, cubeMesh, meshVertices, vsum, vadd]

lemma cube_bounds : meshBounds cubeMesh = some ⟨(0, 0, 0), (1, 1, 1), (1, 1, 1)⟩ := by
  norm_num [meshBounds, cubeMesh, meshVertices, vmin, vmax, vsub]

lemma cube_surface_area : meshSurfaceArea cubeMesh = 6 := by
  norm_num [meshSurfaceArea, cubeMesh, calculate_triangle_area, vnorm, triCross,
    cross, vsub, normSq, dot, Real.sqrt_one]

/-- Reduction equation for `get_mesh_statistics` on a nonempty mesh whose
bounding box and center of mass are defined. -/
lemma get_mesh_statistics_eq (m : Mesh) (t : Triangle) (ts : Mesh) (b : Bounds)
    (c : Vec3) (hm : m = t :: ts) (hb : meshBounds m = some b)
    (hc : meshCenterOfMass m = some c) :
    get_mesh_statistics m = some
      { triangle_count := m.length
        vertex_count := m.length * 3
        surface_area := meshSurfaceArea m
        volume := meshVolume m
        center_of_mass := c
        bounding_box := b
        triangle_areas :=
          distStats (calculate_triangle_area t) (ts.map calculate_triangle_area)
        edge_lengths :=
          distStats (vnorm (vsub t.2.1 t.1))
            ((triEdgeLengths t).tail ++ ts.flatMap triEdgeLengths)
        aspect_ratio := calculate_aspect_ratio b.dimensions
        surface_area_to_volume_ratio :=
          if 0 < meshVolume m then some (meshSurfaceArea m / (meshVolume m : ℝ))
          else none } := by
  subst hm
  unfold get_mesh_statistics
  rw [hb, hc]

/-! ### The claims -/

/-- C1: the unit-cube mesh of 12 triangles reports surface area 6, volume 1,
center of mass (1/2, 1/2, 1/2) and aspect ratio 1 through
`get_mesh_statistics` (exact values in the exact-arithmetic model, hence
within any floating-point tolerance). -/
theorem C1_unit_cube_statistics :
    (get_mesh_statistics cubeMesh).map
      (fun s => (s.surface_area, s.volume, s.center_of_mass, s.aspect_ratio)) =
      some (6, 1, ((1:ℚ)/2, (1:ℚ)/2, (1:ℚ)/2), some 1) := by
  rw [get_mesh_statistics_eq cubeMesh _ _ _ _ rfl cube_bounds cube_center_of_mass]
  simp only [Option.map_some']
  rw [cube_surface_area, cube_volume]
  norm_num [calculate_aspect_ratio, smallestDim, largestDim]

/-- C7: the aspect ratio reported by the property engine is
`sorted(dimensions)[2] / sorted(dimensions)[0]`, and the `None` sentinel —
not an exception — is returned exactly when the smallest bounding-box
dimension is `≤ 0` (the numeric epsilon used by the source is `0`: the test
is `sorted_dims[0] > 0`). -/
theorem C7_aspect_ratio_sentinel :
    (∀ (m : Mesh) (stats : MeshStatistics), get_mesh_statistics m = some stats →
        ∃ b, meshBounds m = some b ∧
          stats.aspect_ratio = calculate_aspect_ratio b.dimensions) ∧
    (∀ d : Vec3, calculate_aspect_ratio d = none ↔ smallestDim d ≤ 0) ∧
    (∀ d : Vec3, 0 < smallestDim d →
        calculate_aspect_ratio d = some (largestDim d / smallestDim d)) := by
  refine ⟨?_, ?_, ?_⟩
  · intro m stats h
    rcases m with _ | ⟨t, ts⟩
    · exact absurd h (by rw [show get_mesh_statistics [] = none from rfl]; simp)
    · rcases hb : meshBounds (t :: ts) with _ | b
      · exfalso
        unfold get_mesh_statistics at h
        rcases hc : meshCenterOfMass (t :: ts) with _ | c <;>
          (rw [hb, hc] at h; exact Option.noConfusion h)
      · rcases hc : meshCenterOfMass (t :: ts) with _ | c
        · exfalso
          unfold get_mesh_statistics at h
          rw [hb, hc] at h
          exact Option.noConfusion h
        · refine ⟨b, rfl, ?_⟩
          rw [get_mesh_statistics_eq _ t ts b c rfl hb hc] at h
          cases Option.some.inj h
          rfl
  · intro d
    unfold calculate_aspect_ratio
    constructor
    · intro h
      by_contra hlt
      rw [if_pos (lt_of_not_le hlt)] at h
      exact Option.noConfusion h
    · intro h
      rw [if_neg (not_lt.mpr h)]
  · intro d h
    unfold calculate_aspect_ratio
    rw [if_pos h]

/-- C6: a triangle with two coincident vertices is listed in
`degenerate_triangles` (its area is `0 < 1e-10`) and forces
`is_valid = false`; conversely validity is exactly the absence of degenerate
triangles — the dimension and volume checks only ever append warnings. -/
theorem C6_degenerate_detection :
    (∀ (m : Mesh) (r : ValidationResult) (i : Nat) (t : Triangle),
        validate_mesh m = some r → m.get? i = some t →
        (t.1 = t.2.1 ∨ t.2.1 = t.2.2 ∨ t.1 = t.2.2) →
        i ∈ r.degenerate_triangles ∧ r.is_valid = false) ∧
    (∀ (m : Mesh) (r : ValidationResult), validate_mesh m = some r →
        (r.is_valid = true ↔ r.degenerate_triangles = [])) := by
  have hval : ∀ (m : Mesh) (r : ValidationResult), validate_mesh m = some r →
      r.degenerate_triangles =
        m.enum.filterMap (fun p => if isDegenerate p.2 then some p.1 else none) ∧
      r.is_valid = (m.enum.filterMap
        (fun p => if isDegenerate p.2 then some p.1 else none)).isEmpty := by
    intro m r h
    unfold validate_mesh at h
    rcases hb : meshBounds m with _ | b
    · rw [hb] at h
      exact Option.noConfusion h
    · rw [hb] at h
      cases Option.some.inj h
      constructor
      · rfl
      · by_cases hd : (m.enum.filterMap
            (fun p => if isDegenerate p.2 then some p.1 else none)).isEmpty
        · simp [hd]
        · simp [hd]
  refine ⟨?_, ?_⟩
  · intro m r i t h hget hco
    obtain ⟨hdeg, hvalid⟩ := hval m r h
    have hdt : isDegenerate t = true := by
      unfold isDegenerate
      rw [normSq_triCross_coincident t hco]
      norm_num
    have hmem : i ∈ r.degenerate_triangles := by
      rw [hdeg]
      rw [List.mem_filterMap]
      refine ⟨(i, t), ?_, ?_⟩
      · rw [List.mk_mem_enum_iff_getElem?]
        rw [← List.get?_eq_getElem?]
        exact hget
      · rw [if_pos hdt]
    refine ⟨hmem, ?_⟩
    rw [hvalid]
    rw [← hdeg]
    rcases hr : r.degenerate_triangles with _ | ⟨j, js⟩
    · rw [hr] at hmem
      exact absurd hmem (List.not_mem_nil i)
    · rfl
  · intro m r h
    obtain ⟨hdeg, hvalid⟩ := hval m r h
    rw [hvalid, ← hdeg]
    rw [List.isEmpty_iff]

/-- C2 counterexample: with scale factor `1` (a legal input to `scale_mesh`),
the value returned by `calculate_volume` (resp. `calculate_surface_area`)
before the mutation and after it are identical on the unit cube: the scaled
state is again exactly `loadedState cubeMesh`, so re-issuing the first
conjunct's call is the post-mutation call and returns the same
`meshVolume cubeMesh` (resp. `meshSurfaceArea cubeMesh`) — "for every scale
factor ... changes at least one of the two returned values" is false. -/
theorem C2_counterexample :
    calculate_volume (loadedState cubeMesh) =
      some (meshVolume cubeMesh,
        ⟨some cubeMesh, none, some (meshVolume cubeMesh), none, none⟩) ∧
    scale_mesh
        (⟨some cubeMesh, none, some (meshVolume cubeMesh), none, none⟩ : STLState)
        (ScaleFactor.scalar 1) = some (true, loadedState cubeMesh) ∧
    calculate_surface_area (loadedState cubeMesh) =
      some (meshSurfaceArea cubeMesh,
        ⟨some cubeMesh, some (meshSurfaceArea cubeMesh), none, none, none⟩) ∧
    scale_mesh
        (⟨some cubeMesh, some (meshSurfaceArea cubeMesh), none, none, none⟩ : STLState)
        (ScaleFactor.scalar 1) = some (true, loadedState cubeMesh) := by
  refine ⟨rfl, ?_, rfl, ?_⟩ <;>
  · show some (true, clear_cache
        ⟨some (mapMesh (fun v => vmul v (1, 1, 1)) cubeMesh), _, _, _, _⟩) =
      some (true, loadedState cubeMesh)
    rw [mapMesh_one]
    rfl

/-- C2 amended: repeated `calculate_volume`/`calculate_surface_area` calls
without intervening mutation return the identical value and state
(memoization); every successful `scale_mesh` clears all four cached values
(unconditional invalidation); and a `scale_mesh` issued between two volume
calls changes the returned volume whenever the factor satisfies `|s| ≠ 1`
and the mesh volume is nonzero (the counterexample shows the original
"for every scale factor" is false at `s = 1`). -/
theorem C2_memoization_and_invalidation :
    (∀ (st : STLState) (v : ℚ) (st2 : STLState),
        calculate_volume st = some (v, st2) →
        calculate_volume st2 = some (v, st2)) ∧
    (∀ (st : STLState) (a : ℝ) (st2 : STLState),
        calculate_surface_area st = some (a, st2) →
        calculate_surface_area st2 = some (a, st2)) ∧
    (∀ (st : STLState) (f : ScaleFactor) (st2 : STLState),
        scale_mesh st f = some (true, st2) →
        st2.cached_surface_area = none ∧ st2.cached_volume = none ∧
        st2.cached_bounds = none ∧ st2.cached_center_of_mass = none) ∧
    (∀ (st : STLState) (m : Mesh) (s : ℚ) (v1 : ℚ) (st1 : STLState) (b : Bool)
        (st2 : STLState) (v2 : ℚ) (st3 : STLState),
        st.mesh = some m →
        (st.cached_volume = none ∨ st.cached_volume = some (meshVolume m)) →
        meshVolume m ≠ 0 → |s| ≠ 1 →
        calculate_volume st = some (v1, st1) →
        scale_mesh st1 (ScaleFactor.scalar s) = some (b, st2) →
        calculate_volume st2 = some (v2, st3) →
        v2 ≠ v1) := by
  refine ⟨?_, ?_, ?_, ?_⟩
  · intro st v st2 h
    obtain ⟨omesh, ca, cv, cb, cc⟩ := st
    rcases omesh with _ | m
    · simp [calculate_volume] at h
    · rcases cv with _ | v0 <;> simp [calculate_volume] at h <;>
        obtain ⟨rfl, rfl⟩ := h <;> simp [calculate_volume]
  · intro st a st2 h
    obtain ⟨omesh, ca, cv, cb, cc⟩ := st
    rcases omesh with _ | m
    · simp [calculate_surface_area] at h
    · rcases ca with _ | a0 <;> simp [calculate_surface_area] at h <;>
        obtain ⟨rfl, rfl⟩ := h <;> simp [calculate_surface_area]
  · intro st f st2 h
    obtain ⟨omesh, ca, cv, cb, cc⟩ := st
    rcases omesh with _ | m
    · simp [scale_mesh] at h
    · rcases f with s | l
      · simp [scale_mesh, scale_attempt, clear_cache] at h
        obtain rfl := h
        exact ⟨rfl, rfl, rfl, rfl⟩
      · rcases l with _ | ⟨x, _ | ⟨y, _ | ⟨z, _ | ⟨w, l⟩⟩⟩⟩ <;>
          simp [scale_mesh, scale_attempt, clear_cache] at h
        obtain rfl := h
        exact ⟨rfl, rfl, rfl, rfl⟩
  · intro st m s v1 st1 b st2 v2 st3 hm hcache hV hs h1 h2 h3
    obtain ⟨omesh, ca, cv, cb, cc⟩ := st
    obtain rfl : omesh = some m := hm
    have hv1 : v1 = meshVolume m ∧ st1.mesh = some m := by
      rcases hcache with hc | hc <;> obtain rfl : cv = _ := hc <;>
        simp [calculate_volume] at h1 <;> obtain ⟨rfl, rfl⟩ := h1 <;>
        exact ⟨rfl, rfl⟩
    obtain ⟨rfl, hmesh1⟩ := hv1
    obtain ⟨omesh1, ca1, cv1, cb1, cc1⟩ := st1
    obtain rfl : omesh1 = some m := hmesh1
    simp [scale_mesh, scale_attempt, clear_cache] at h2
    obtain ⟨rfl, rfl⟩ := h2
    simp [calculate_volume] at h3
    obtain ⟨rfl, rfl⟩ := h3
    rw [meshVolume_scale]
    intro heq
    have habs : |s| ^ 3 = 1 := by
      have h' : |s| ^ 3 * meshVolume m = 1 * meshVolume m := by
        rw [one_mul]
        exact heq
      exact mul_right_cancel₀ hV h'
    rcases lt_trichotomy |s| 1 with hlt | heq1 | hgt
    · have hp : |s| ^ 3 < 1 ^ 3 := pow_lt_pow_left₀ hlt (abs_nonneg s) (by norm_num)
      rw [one_pow] at hp
      exact absurd habs (ne_of_lt hp)
    · exact hs heq1
    · have hp : (1:ℚ) < |s| ^ 3 := one_lt_pow₀ hgt (by norm_num)
      exact absurd habs (ne_of_gt hp)

/-- C2 amended witness: on the freshly loaded unit cube, scaling by 2
between two volume calls changes the returned volume. -/
theorem C2_memoization_witness :
    meshVolume (mapMesh (fun v => vmul v ((2:ℚ), 2, 2)) cubeMesh) ≠
      meshVolume cubeMesh :=
  C2_memoization_and_invalidation.2.2.2 (loadedState cubeMesh) cubeMesh 2
    (meshVolume cubeMesh)
    ⟨some cubeMesh, none, some (meshVolume cubeMesh), none, none⟩ true
    ⟨some (mapMesh (fun v => vmul v ((2:ℚ), 2, 2)) cubeMesh), none, none, none, none⟩
    (meshVolume (mapMesh (fun v => vmul v ((2:ℚ), 2, 2)) cubeMesh))
    ⟨some (mapMesh (fun v => vmul v ((2:ℚ), 2, 2)) cubeMesh), none,
      some (meshVolume (mapMesh (fun v => vmul v ((2:ℚ), 2, 2)) cubeMesh)),
      none, none⟩
    rfl (Or.inl rfl) (by rw [cube_volume]; norm_num)
    (by rw [show |(2:ℚ)| = 2 from abs_of_pos (by norm_num)]; norm_num)
    rfl rfl rfl

/-- C5: `scale_mesh` accepts one scalar or exactly three scalars and rejects
any other arity with `invalidArgument` (surfaced as the `False` return of the
`except` handler), `translate_mesh` requires exactly three components, and a
rejected call leaves the whole state — in particular the mesh vertices —
untouched. -/
theorem C5_mutation_arity_atomicity :
    (∀ (st : STLState) (m : Mesh) (l : List ℚ), st.mesh = some m →
        l.length ≠ 3 →
        scale_attempt st m (ScaleFactor.vec l) = .error .invalidArgument ∧
        scale_mesh st (ScaleFactor.vec l) = some (false, st)) ∧
    (∀ (st : STLState) (m : Mesh) (s : ℚ), st.mesh = some m →
        (scale_mesh st (ScaleFactor.scalar s)).map Prod.fst = some true) ∧
    (∀ (st : STLState) (m : Mesh) (x y z : ℚ), st.mesh = some m →
        (scale_mesh st (ScaleFactor.vec [x, y, z])).map Prod.fst = some true) ∧
    (∀ (st : STLState) (m : Mesh) (l : List ℚ), st.mesh = some m →
        l.length ≠ 3 →
        translate_attempt st m l = .error .invalidArgument ∧
        translate_mesh st l = some (false, st)) ∧
    (∀ (st : STLState) (m : Mesh) (x y z : ℚ), st.mesh = some m →
        (translate_mesh st [x, y, z]).map Prod.fst = some true) := by
  refine ⟨?_, ?_, ?_, ?_, ?_⟩
  · intro st m l hm hlen
    obtain ⟨omesh, ca, cv, cb, cc⟩ := st
    obtain rfl : omesh = some m := hm
    rcases l with _ | ⟨x, _ | ⟨y, _ | ⟨z, _ | ⟨w, l⟩⟩⟩⟩
    · exact ⟨rfl, rfl⟩
    · exact ⟨rfl, rfl⟩
    · exact ⟨rfl, rfl⟩
    · exact absurd rfl hlen
    · exact ⟨rfl, rfl⟩
  · intro st m s hm
    obtain ⟨omesh, ca, cv, cb, cc⟩ := st
    obtain rfl : omesh = some m := hm
    rfl
  · intro st m x y z hm
    obtain ⟨omesh, ca, cv, cb, cc⟩ := st
    obtain rfl : omesh = some m := hm
    rfl
  · intro st m l hm hlen
    obtain ⟨omesh, ca, cv, cb, cc⟩ := st
    obtain rfl : omesh = some m := hm
    rcases l with _ | ⟨x, _ | ⟨y, _ | ⟨z, _ | ⟨w, l⟩⟩⟩⟩
    · exact ⟨rfl, rfl⟩
    · exact ⟨rfl, rfl⟩
    · exact ⟨rfl, rfl⟩
    · exact absurd rfl hlen
    · exact ⟨rfl, rfl⟩
  · intro st m x y z hm
    obtain ⟨omesh, ca, cv, cb, cc⟩ := st
    obtain rfl : omesh = some m := hm
    rfl

/-- C5 witness: a 2-element scale factor on the loaded cube is rejected as an
invalid argument and the state is returned unchanged. -/
theorem C5_mutation_witness :
    scale_attempt (loadedState cubeMesh) cubeMesh (ScaleFactor.vec [2, 3]) =
      .error .invalidArgument ∧
    scale_mesh (loadedState cubeMesh) (ScaleFactor.vec [2, 3]) =
      some (false, loadedState cubeMesh) :=
  C5_mutation_arity_atomicity.1 (loadedState cubeMesh) cubeMesh [2, 3] rfl
    (by decide)

/-- C8: explicitly scaling by `s` and then by `1 / s` restores the mesh and
hence the reported volume exactly; after the single first call the held mesh
is the scaled mesh, whose volume is `|s| ^ 3` times the original — no
auto-revert happens. -/
theorem C8_scale_round_trip :
    ∀ (st : STLState) (m : Mesh) (s : ℚ), st.mesh = some m → s ≠ 0 →
      ∃ st1 st2 : STLState,
        scale_mesh st (ScaleFactor.scalar s) = some (true, st1) ∧
        st1.mesh = some (mapMesh (fun v => vmul v (s, s, s)) m) ∧
        (calculate_volume st1).map Prod.fst = some (|s| ^ 3 * meshVolume m) ∧
        scale_mesh st1 (ScaleFactor.scalar (1 / s)) = some (true, st2) ∧
        st2.mesh = some m ∧
        (calculate_volume st2).map Prod.fst = some (meshVolume m) := by
  intro st m s hm hs
  obtain ⟨omesh, ca, cv, cb, cc⟩ := st
  obtain rfl : omesh = some m := hm
  refine ⟨⟨some (mapMesh (fun v => vmul v (s, s, s)) m), none, none, none, none⟩,
    ⟨some (mapMesh (fun v => vmul v (1 / s, 1 / s, 1 / s))
        (mapMesh (fun v => vmul v (s, s, s)) m)), none, none, none, none⟩,
    rfl, rfl, ?_, rfl, ?_, ?_⟩
  · simp only [calculate_volume, Option.map_some']
    rw [meshVolume_scale]
  · rw [mapMesh_inv s hs m]
  · simp only [calculate_volume, Option.map_some']
    rw [mapMesh_inv s hs m]

/-- C8 witness: the round trip with `s = 2` on the loaded unit cube. -/
theorem C8_scale_round_trip_witness :
    ∃ st1 st2 : STLState,
      scale_mesh (loadedState cubeMesh) (ScaleFactor.scalar 2) =
        some (true, st1) ∧
      st1.mesh = some (mapMesh (fun v => vmul v ((2:ℚ), 2, 2)) cubeMesh) ∧
      (calculate_volume st1).map Prod.fst =
        some (|(2:ℚ)| ^ 3 * meshVolume cubeMesh) ∧
      scale_mesh st1 (ScaleFactor.scalar (1 / 2)) = some (true, st2) ∧
      st2.mesh = some cubeMesh ∧
      (calculate_volume st2).map Prod.fst = some (meshVolume cubeMesh) :=
  C8_scale_round_trip (loadedState cubeMesh) cubeMesh 2 rfl (by norm_num)

/-- C9: for every mesh with a defined bounding box the coverage efficiency
computed by the code equals the spec formula
`max (1 - 0.15*min(ar/10,1) - 0.15*min((area/volume)/10,1)) 0.7`, with an
undefined aspect ratio replaced by `1` (for a zero-volume mesh both sides
degrade to a zero surface-to-volume factor). -/
theorem C9_coverage_efficiency_formula :
    ∀ (m : Mesh) (b : Bounds), meshBounds m = some b →
      calculate_coverage_efficiency m =
        some (coverageEfficiencySpec (calculate_aspect_ratio b.dimensions)
          (meshSurfaceArea m) (meshVolume m)) := by
  intro m b hb
  unfold calculate_coverage_efficiency coverageEfficiencySpec
  rw [hb]
  by_cases hv : 0 < meshVolume m
  · rw [if_pos hv]
    ring_nf
  · rw [if_neg hv]
    have h0 : meshVolume m = 0 :=
      le_antisymm (not_lt.mp hv) (abs_nonneg (signedVolume m))
    rw [h0]
    norm_num
    ring_nf

/-- C9 witness: the coverage-efficiency identity instantiated on the unit
cube (bounding-box dimensions `(1, 1, 1)`). -/
theorem C9_coverage_efficiency_witness :
    calculate_coverage_efficiency cubeMesh =
      some (coverageEfficiencySpec (calculate_aspect_ratio (1, 1, 1))
        (meshSurfaceArea cubeMesh) (meshVolume cubeMesh)) :=
  C9_coverage_efficiency_formula cubeMesh ⟨(0, 0, 0), (1, 1, 1), (1, 1, 1)⟩
    cube_bounds

/-- C7 witness: the aspect-ratio formula instantiated at dimensions
`(1, 2, 3)`, whose smallest entry is positive. -/
theorem C7_aspect_ratio_witness :
    calculate_aspect_ratio ((1:ℚ), 2, 3) =
      some (largestDim (1, 2, 3) / smallestDim (1, 2, 3)) :=
  C7_aspect_ratio_sentinel.2.2 (1, 2, 3) (by norm_num [smallestDim, min_def])

/-- C6 witness: the single-triangle mesh whose first two vertices coincide is
flagged: index 0 is listed among the degenerate triangles and the mesh is
reported invalid. -/
theorem C6_degenerate_witness :
    0 ∈ (⟨false, ["Found degenerate triangles"],
        ["Mesh has very small dimensions in one or more axes",
         "Mesh has very small or zero volume"], [0]⟩ :
      ValidationResult).degenerate_triangles ∧
    (⟨false, ["Found degenerate triangles"],
        ["Mesh has very small dimensions in one or more axes",
         "Mesh has very small or zero volume"], [0]⟩ :
      ValidationResult).is_valid = false :=
  C6_degenerate_detection.1 [((0, 0, 0), (0, 0, 0), (1, 0, 0))] _ 0
    ((0, 0, 0), (0, 0, 0), (1, 0, 0))
    (by norm_num [validate_mesh, meshBounds, meshVertices, vmin, vmax, vsub,
      meshVolume, signedVolume, volTerm, dot, cross, isDegenerate, triCross,
      normSq, List.enum, List.enumFrom, List.filterMap_cons, List.filterMap_nil])
    rfl (Or.inl rfl)

/-- C4: the resin-cost calculator (the `ResinCostRequest` validation of the
request layer composed with `STLTools.estimate_resin_cost`) rejects
`density ≤ 0` or `price ≤ 0` as `invalidArgument`; otherwise, for volume
declared in mm³, it computes `volume_cm3 = volume_mm3 / 1000`,
`mass_g = volume_cm3 * density` and `cost = mass_g / 1000 * price_per_kg`;
on a mesh of volume 1000 mm³ with density 1.1 and price 50 the cost is
`11/200 = 0.055` exactly. -/
theorem C4_resin_cost :
    (∀ (st : STLState) (d p : ℚ) (u : VolumeUnit), d ≤ 0 ∨ p ≤ 0 →
        resin_cost_endpoint st d p u = .error .invalidArgument) ∧
    (∀ (st : STLState) (d p v : ℚ) (st2 : STLState),
        0 < d → 0 < p → calculate_volume st = some (v, st2) →
        resin_cost_endpoint st d p VolumeUnit.mm3 =
          .ok (some (⟨v, v / 1000, v / 1000 * d, v / 1000 * d / 1000,
            v / 1000 * d / 1000 * p⟩, st2))) ∧
    resin_cost_endpoint (loadedState cube10Mesh) (11/10) 50 VolumeUnit.mm3 =
      .ok (some (⟨1000, 1, 11/10, 11/10000, 11/200⟩,
        ⟨some cube10Mesh, none, some 1000, none, none⟩)) := by
  have hv10 : meshVolume cube10Mesh = 1000 := by
    unfold cube10Mesh
    rw [meshVolume_scale, cube_volume]
    rw [show |(10:ℚ)| = 10 from abs_of_pos (by norm_num)]
    norm_num
  refine ⟨?_, ?_, ?_⟩
  · intro st d p u h
    have h' : resinRequestValid d p ≠ true := by
      intro hvalid
      simp only [resinRequestValid, Bool.and_eq_true, decide_eq_true_eq] at hvalid
      obtain ⟨hd, hp⟩ := hvalid
      rcases h with h | h <;> linarith
    unfold resin_cost_endpoint
    rw [if_neg h']
  · intro st d p v st2 hd hp hvol
    have h' : resinRequestValid d p = true := by
      simp only [resinRequestValid, Bool.and_eq_true, decide_eq_true_eq]
      exact ⟨hd, hp⟩
    unfold resin_cost_endpoint
    rw [if_pos h']
    unfold estimate_resin_cost
    rw [hvol]
  · have h' : resinRequestValid (11/10) 50 = true := by
      simp only [resinRequestValid, Bool.and_eq_true, decide_eq_true_eq]
      constructor <;> norm_num
    unfold resin_cost_endpoint
    rw [if_pos h']
    unfold estimate_resin_cost
    rw [show calculate_volume (loadedState cube10Mesh) =
      some (meshVolume cube10Mesh,
        ⟨some cube10Mesh, none, some (meshVolume cube10Mesh), none, none⟩)
      from rfl]
    rw [hv10]
    norm_num

/-- C4 witness: the positive-parameter branch instantiated on the loaded
unit cube with density 1 and price 1. -/
theorem C4_resin_cost_witness :
    resin_cost_endpoint (loadedState cubeMesh) 1 1 VolumeUnit.mm3 =
      .ok (some (⟨meshVolume cubeMesh, meshVolume cubeMesh / 1000,
        meshVolume cubeMesh / 1000 * 1, meshVolume cubeMesh / 1000 * 1 / 1000,
        meshVolume cubeMesh / 1000 * 1 / 1000 * 1⟩,
        ⟨some cubeMesh, none, some (meshVolume cubeMesh), none, none⟩)) :=
  C4_resin_cost.2.1 (loadedState cubeMesh) 1 1 (meshVolume cubeMesh)
    ⟨some cubeMesh, none, some (meshVolume cubeMesh), none, none⟩
    (by norm_num) (by norm_num) rfl

/-! ### Association-list lemmas for the session store -/

lemma alookup_eq_none_of_not_mem {α : Type} (l : List (String × α)) (k : String)
    (h : k ∉ l.map Prod.fst) : alookup l k = none := by
  induction l with
  | nil => rfl
  | cons p tl ih =>
    simp only [List.map_cons, List.mem_cons] at h
    push_neg at h
    unfold alookup
    rw [if_neg (fun he => h.1 he.symm)]
    exact ih h.2

lemma aerase_of_not_mem {α : Type} (l : List (String × α)) (k : String)
    (h : k ∉ l.map Prod.fst) : aerase l k = l := by
  induction l with
  | nil => rfl
  | cons p tl ih =>
    simp only [List.map_cons, List.mem_cons] at h
    push_neg at h
    unfold aerase
    rw [if_neg (fun he => h.1 he.symm)]
    rw [ih h.2]

lemma alookup_aerase_ne {α : Type} (l : List (String × α)) (A B : String)
    (h : A ≠ B) : alookup (aerase l A) B = alookup l B := by
  induction l with
  | nil => rfl
  | cons p tl ih =>
    unfold aerase
    by_cases hp : p.1 = A
    · rw [if_pos hp]
      rw [show alookup (p :: tl) B = alookup tl B from by
        simp only [alookup]
        rw [if_neg (fun he : p.1 = B => h (hp.symm.trans he))]]
      exact ih
    · rw [if_neg hp]
      unfold alookup
      by_cases hb : p.1 = B
      · rw [if_pos hb, if_pos hb]
      · rw [if_neg hb, if_neg hb]
        exact ih

lemma aerase_length {α : Type} (l : List (String × α)) (k : String)
    (hnd : (l.map Prod.fst).Nodup) (h : (alookup l k).isSome = true) :
    (aerase l k).length + 1 = l.length := by
  induction l with
  | nil => simp [alookup] at h
  | cons p tl ih =>
    simp only [List.map_cons, List.nodup_cons] at hnd
    obtain ⟨hp1, hnd2⟩ := hnd
    unfold aerase
    by_cases hp : p.1 = k
    · rw [if_pos hp]
      rw [aerase_of_not_mem tl k (hp ▸ hp1)]
      rfl
    · rw [if_neg hp]
      unfold alookup at h
      rw [if_neg hp] at h
      simp only [List.length_cons]
      rw [ih hnd2 h]

/-- C3: with the store at its configured maximum and no session past its
TTL, `create_session` fails with `capacityExceeded` after the attempted
sweep, leaving the store — hence every live session — untouched; after one
`delete_session` the next `create_session` succeeds. -/
theorem C3_capacity_enforcement :
    (∀ (mgr : SessionMgr) (now : ℚ) (newId : String) (content : List Nat)
        (fname : String),
        mgr.max_sessions ≤ mgr.sessions.length →
        (∀ p ∈ mgr.sessions, now - p.2.last_accessed ≤ mgr.session_timeout) →
        create_session mgr now newId content fname =
          (.error .capacityExceeded, mgr)) ∧
    (∀ (mgr : SessionMgr) (now : ℚ) (sid newId : String) (content : List Nat)
        (fname : String),
        (mgr.sessions.map Prod.fst).Nodup →
        mgr.sessions.length = mgr.max_sessions →
        (alookup mgr.sessions sid).isSome = true →
        (create_session (delete_session mgr sid).2 now newId content fname).1 =
          .ok newId) := by
  constructor
  · intro mgr now newId content fname hfull hlive
    have hexp : mgr.sessions.filter
        (fun p => mgr.session_timeout < now - p.2.last_accessed) = [] := by
      rw [List.filter_eq_nil_iff]
      intro p hp
      simp only [decide_eq_true_eq, not_lt]
      exact hlive p hp
    have hclean : (cleanup_expired_sessions mgr now).2 = mgr := by
      unfold cleanup_expired_sessions
      rw [hexp]
      rfl
    unfold create_session
    rw [if_pos hfull, hclean]
    unfold create_session_store
    rw [if_pos hfull]
  · intro mgr now sid newId content fname hnd hN hsid
    obtain ⟨tmo, mx, ss, si, lr, ch, cm⟩ := mgr
    simp only at hnd hN hsid
    unfold delete_session
    rw [if_pos hsid]
    have hlen2 : (aerase ss sid).length + 1 = ss.length :=
      aerase_length ss sid hnd hsid
    unfold create_session
    have hnotfull : ¬ (mx ≤ (aerase ss sid).length) := by
      omega
    rw [if_neg hnotfull]
    unfold create_session_store
    rw [if_neg hnotfull]

/-- C3 witness: a store with `maxSessions = 1` holding one live session
(timeout 10, last-accessed 0, now 0) rejects the next create with
`capacityExceeded` and is left unchanged. -/
theorem C3_capacity_witness :
    create_session
        ⟨10, 1, [("a", ⟨"a.stl", [], 0, 0, 0⟩)], [], [], 0, 0⟩ 0 "b" [] "b.stl" =
      (.error .capacityExceeded,
        ⟨10, 1, [("a", ⟨"a.stl", [], 0, 0, 0⟩)], [], [], 0, 0⟩) :=
  C3_capacity_enforcement.1
    ⟨10, 1, [("a", ⟨"a.stl", [], 0, 0, 0⟩)], [], [], 0, 0⟩ 0 "b" [] "b.stl"
    (by decide)
    (by
      intro p hp
      rcases List.mem_singleton.mp hp with rfl
      norm_num)

/-- `get_stl_tools` on a session that exists and is already materialized
returns the cached instance (the hit branch). -/
lemma get_stl_tools_hit (mgr : SessionMgr) (load : List Nat → Option STLState)
    (sid : String) (inst : STLState)
    (hs : (alookup mgr.sessions sid).isNone = false)
    (hi : alookup mgr.stl_instances sid = some inst) :
    (get_stl_tools mgr load sid).1 = some inst := by
  unfold get_stl_tools
  rw [hs, hi]
  simp

/-- C10: a successful `delete_session A` removes only session `A`: session
`B` keeps its metadata record (hence its stored bytes and sizes), its
materialized `STLTools` instance stays in `stl_instances`, and
`get_stl_tools B` returns the same instance after the delete as before. -/
theorem C10_delete_session_frame :
    ∀ (mgr : SessionMgr) (A B : String) (instB : STLState)
      (load : List Nat → Option STLState),
      A ≠ B →
      (alookup mgr.sessions A).isSome = true →
      (alookup mgr.sessions B).isSome = true →
      alookup mgr.stl_instances B = some instB →
      (delete_session mgr A).1 = true ∧
      alookup (delete_session mgr A).2.sessions B = alookup mgr.sessions B ∧
      alookup (delete_session mgr A).2.stl_instances B = some instB ∧
      (get_stl_tools (delete_session mgr A).2 load B).1 = some instB ∧
      (get_stl_tools mgr load B).1 = some instB := by
  intro mgr A B instB load hAB hA hB hiB
  obtain ⟨tmo, mx, ss, si, lr, ch, cm⟩ := mgr
  unfold delete_session
  rw [if_pos hA]
  have hsB : alookup (aerase ss A) B = alookup ss B := alookup_aerase_ne ss A B hAB
  have hiB2 : alookup (aerase si A) B = some instB := by
    rw [alookup_aerase_ne si A B hAB]
    exact hiB
  have hnone : (alookup ss B).isNone = false := by
    rcases halo : alookup ss B with _ | x
    · rw [halo] at hB
      exact absurd hB (by simp)
    · rfl
  have hnone2 : (alookup (aerase ss A) B).isNone = false := by
    rw [hsB]
    exact hnone
  exact ⟨rfl, hsB, hiB2,
    get_stl_tools_hit _ load B instB hnone2 hiB2,
    get_stl_tools_hit _ load B instB hnone hiB⟩

/-- C10 witness: deleting session `a` from a two-session store leaves
session `b` and its materialized instance untouched. -/
theorem C10_delete_session_frame_witness :
    (delete_session
      ⟨10, 5, [("a", ⟨"a.stl", [], 0, 0, 0⟩), ("b", ⟨"b.stl", [], 0, 0, 0⟩)],
        [("b", loadedState cubeMesh)], [], 0, 0⟩ "a").1 = true ∧
    alookup (delete_session
      ⟨10, 5, [("a", ⟨"a.stl", [], 0, 0, 0⟩), ("b", ⟨"b.stl", [], 0, 0, 0⟩)],
        [("b", loadedState cubeMesh)], [], 0, 0⟩ "a").2.sessions "b" =
      alookup [("a", (⟨"a.stl", [], 0, 0, 0⟩ : Session)),
        ("b", ⟨"b.stl", [], 0, 0, 0⟩)] "b" ∧
    alookup (delete_session
      ⟨10, 5, [("a", ⟨"a.stl", [], 0, 0, 0⟩), ("b", ⟨"b.stl", [], 0, 0, 0⟩)],
        [("b", loadedState cubeMesh)], [], 0, 0⟩ "a").2.stl_instances "b" =
      some (loadedState cubeMesh) ∧
    (get_stl_tools (delete_session
      ⟨10, 5, [("a", ⟨"a.stl", [], 0, 0, 0⟩), ("b", ⟨"b.stl", [], 0, 0, 0⟩)],
        [("b", loadedState cubeMesh)], [], 0, 0⟩ "a").2
      (fun _ => none) "b").1 = some (loadedState cubeMesh) ∧
    (get_stl_tools
      ⟨10, 5, [("a", ⟨"a.stl", [], 0, 0, 0⟩), ("b", ⟨"b.stl", [], 0, 0, 0⟩)],
        [("b", loadedState cubeMesh)], [], 0, 0⟩
      (fun _ => none) "b").1 = some (loadedState cubeMesh) :=
  C10_delete_session_frame
    ⟨10, 5, [("a", ⟨"a.stl", [], 0, 0, 0⟩), ("b", ⟨"b.stl", [], 0, 0, 0⟩)],
      [("b", loadedState cubeMesh)], [], 0, 0⟩ "a" "b" (loadedState cubeMesh)
    (fun _ => none) (by decide) rfl rfl rfl


end STLSpec
